import Mathlib

/-!
Verification of the MedGuide conversation-orchestration core: the response
validator (`parseAIResponse` in `src/lib/utils/promptBuilder.ts`), the prompt
builders (`buildInitialPrompt`, `buildGenerateRecordPrompt`), the API route's
final-record placeholder substitution (`src/app/api/ai-session/route.ts`), and
the session store's `submitAnswers` / `generateRecord` transitions
(`src/store/sessionStore.ts`).

Modelling conventions:
- decoded JSON values are the inductive `Json`; a JavaScript object is an
  ordered association list of fields (duplicate-free in every value produced
  by `JSON.parse`);
- JavaScript truthiness is `Json.truthy`; `===` comparisons against literals
  are pattern matches;
- the impure clock read `getCurrentLocalTime` (`new Date().toLocaleString()`)
  is modelled by threading the observed clock string `currentTime` as an
  explicit argument into each prompt builder;
- asynchronous `fetch` round trips are modelled by passing the response the
  call would yield as an explicit `ApiResponse` argument to each store
  transition, together with a `modelCalled` flag recording whether the
  transition reached its network call;
- diagnostic message strings follow the source text.
-/

namespace MedGuide2

/-- Decoded JSON values, as produced by `JSON.parse`. Numbers are modelled as
integers (all numeric payloads relevant to the verified properties are
integral). -/
inductive Json where
  | null
  | bool (b : Bool)
  | num (n : Int)
  | str (s : String)
  | arr (elems : List Json)
  | obj (fields : List (String × Json))

/-- JavaScript truthiness of a decoded JSON value: `null`, `false`, `0` and
the empty string are falsy; every array and object is truthy. -/
def Json.truthy : Json → Bool
  | .null => false
  | .bool b => b
  | .num n => n != 0
  | .str s => !s.isEmpty
  | .arr _ => true
  | .obj _ => true

/-- Whether `typeof v === 'string'`. -/
def Json.isStr : Json → Bool
  | .str _ => true
  | _ => false

/-- `Array.isArray(v) && v.every(item => typeof item === 'string')`. -/
def Json.isStrArray : Json → Bool
  | .arr xs => xs.all Json.isStr
  | _ => false

/-- Property access on a JavaScript object: the value stored under `key`
(`key in o` holds exactly when this is `some`). -/
def jsonLookup (fields : List (String × Json)) (key : String) : Option Json :=
  match fields with
  | [] => none
  | (k, v) :: rest => if k = key then some v else jsonLookup rest key

/-- `Object.keys`. -/
def objKeys (fields : List (String × Json)) : List String :=
  fields.map Prod.fst

/-- `Object.keys(resp).filter(key => !allowedKeys.includes(key))`. -/
def extraKeysOutside (fields : List (String × Json)) (allowed : List String) :
    List String :=
  (objKeys fields).filter (fun k => !allowed.contains k)

/-- `typeof` of a decoded JSON value (`typeof null` is `"object"`, and arrays
are objects). -/
def Json.jsTypeof : Json → String
  | .null => "object"
  | .bool _ => "boolean"
  | .num _ => "number"
  | .str _ => "string"
  | .arr _ => "object"
  | .obj _ => "object"

/-- The fields a value exposes when inspected as a JavaScript object: `none`
exactly when `typeof v !== 'object' || v === null`; an array exposes its
elements under their decimal index keys. -/
def Json.objectFields : Json → Option (List (String × Json))
  | .obj fields => some fields
  | .arr xs => some (xs.enum.map fun p => (toString p.1, p.2))
  | _ => none

/-! ## The Schema Validator result types (promptBuilder.ts interfaces) -/

/-- Interface `Question`: `{ id: string; text: string; suggestions?: string[] }`. -/
structure Question where
  id : String
  text : String
  suggestions : Option (List String)
deriving DecidableEq, Repr

/-- Interface `QuestionResponse`: `{ explanation: string; questions: Question[] }`. -/
structure QuestionResponse where
  explanation : String
  questions : List Question
deriving DecidableEq, Repr

/-- Interface `ReadyForRecordResponse` (the `readyForRecord: true` field is
implicit in the constructor; only the optional explanation is data). -/
structure ReadyForRecordResponse where
  explanation : Option String
deriving DecidableEq, Repr

/-- Interface `PatientExplanationData`. -/
structure PatientExplanationData where
  mostProbableDiagnosis : List String
  advice : String
  recommendedSpecialists : List String
deriving DecidableEq, Repr

/-- Interface `MedicalRecordResponse`. -/
structure MedicalRecordResponse where
  medicalRecord : String
deriving DecidableEq, Repr

/-- The tagged union returned by `parseAIResponse`. -/
inductive ParseResult where
  | questions (data : QuestionResponse)
  | readyForRecord (data : ReadyForRecordResponse)
  | patientExplanation (data : PatientExplanationData)
  | medicalRecord (data : MedicalRecordResponse)
  | error (message : String)
deriving DecidableEq, Repr

/-! ## parseAIResponse (promptBuilder.ts, the Schema Validator) -/

/-- Branch guard 1: `'readyForRecord' in response && response.readyForRecord === true`. -/
def readyGuard (fields : List (String × Json)) : Bool :=
  match jsonLookup fields "readyForRecord" with
  | some (.bool true) => true
  | _ => false

/-- `'explanation' in resp && resp.explanation && typeof resp.explanation !== 'string'`. -/
def badReadyExplanation (fields : List (String × Json)) : Bool :=
  match jsonLookup fields "explanation" with
  | some e => e.truthy && !e.isStr
  | none => false

/-- Branch 1 body of `parseAIResponse`: validate and build a
`ReadyForRecordResponse`. The explanation is kept only when it is a truthy
string. -/
def parseReady (fields : List (String × Json)) : ParseResult :=
  if badReadyExplanation fields then
    .error "Invalid explanation type in readyForRecord response."
  else
    let extraKeys := extraKeysOutside fields ["readyForRecord", "explanation"]
    if extraKeys.isEmpty then
      .readyForRecord
        ⟨match jsonLookup fields "explanation" with
          | some (.str s) => if s.isEmpty then none else some s
          | _ => none⟩
    else
      .error ("Unexpected keys in readyForRecord response: "
        ++ String.intercalate ", " extraKeys
        ++ ". Expected only 'readyForRecord' and optional 'explanation'.")

/-- Branch guard 2: the three patient-explanation fields are present with an
array-of-strings / string / array-of-strings shape. -/
def explanationShapeOk (fields : List (String × Json)) : Bool :=
  (match jsonLookup fields "mostProbableDiagnosis" with
    | some j => j.isStrArray
    | none => false) &&
  (match jsonLookup fields "advice" with
    | some j => j.isStr
    | none => false) &&
  (match jsonLookup fields "recommendedSpecialists" with
    | some j => j.isStrArray
    | none => false)

/-- Field read as a string, defaulting to `""` (used only after the shape
guard has established the field is a string). -/
def getStr (fields : List (String × Json)) (key : String) : String :=
  match jsonLookup fields key with
  | some (.str s) => s
  | _ => ""

/-- Field read as an array of strings, defaulting to `[]` (used only after
the shape guard has established the field is an array of strings). -/
def getStrList (fields : List (String × Json)) (key : String) : List String :=
  match jsonLookup fields key with
  | some (.arr xs) => xs.filterMap (fun j => match j with | .str s => some s | _ => none)
  | _ => []

/-- Branch 2 body of `parseAIResponse`. -/
def parseExplanation (fields : List (String × Json)) : ParseResult :=
  let extraKeys := extraKeysOutside fields
    ["mostProbableDiagnosis", "advice", "recommendedSpecialists"]
  if extraKeys.isEmpty then
    .patientExplanation
      ⟨getStrList fields "mostProbableDiagnosis",
       getStr fields "advice",
       getStrList fields "recommendedSpecialists"⟩
  else
    .error ("Unexpected keys in patientExplanation response: "
      ++ String.intercalate ", " extraKeys)

/-- Branch guard 3: `'medicalRecord' in response && typeof response.medicalRecord
=== 'string' && Object.keys(response).length === 1`. -/
def recordShapeOk (fields : List (String × Json)) : Bool :=
  (match jsonLookup fields "medicalRecord" with
    | some j => j.isStr
    | none => false) &&
  fields.length == 1

/-- Branch guard 4: `'explanation' in response && typeof response.explanation
=== 'string' && 'questions' in response && Array.isArray(response.questions)`. -/
def questionShapeOk (fields : List (String × Json)) : Bool :=
  (match jsonLookup fields "explanation" with
    | some j => j.isStr
    | none => false) &&
  (match jsonLookup fields "questions" with
    | some (.arr _) => true
    | _ => false)

/-- The per-item check inside the questions array: object with a string `id`,
a string `text`, and either no `suggestions` key or an array of strings. Note
that no relation between the ids of distinct items is checked. -/
def questionItemOk (q : Json) : Bool :=
  match q with
  | .obj f =>
      (match jsonLookup f "id" with | some j => j.isStr | none => false) &&
      (match jsonLookup f "text" with | some j => j.isStr | none => false) &&
      (match jsonLookup f "suggestions" with
        | none => true
        | some s => s.isStrArray)
  | _ => false

/-- The typed view of a validated question item (the source keeps the raw
object via a cast; only the declared `Question` fields are ever read
downstream, so the model extracts exactly those). -/
def extractQuestion (q : Json) : Question :=
  match q with
  | .obj f =>
      { id := getStr f "id"
        text := getStr f "text"
        suggestions :=
          match jsonLookup f "suggestions" with
          | some (.arr xs) =>
              some (xs.filterMap (fun j => match j with | .str s => some s | _ => none))
          | _ => none }
  | _ => { id := "", text := "", suggestions := none }

/-- Branch 4 body of `parseAIResponse`. -/
def parseQuestions (fields : List (String × Json)) : ParseResult :=
  let qs := match jsonLookup fields "questions" with
    | some (.arr xs) => xs
    | _ => []
  if qs.all questionItemOk then
    let extraKeys := extraKeysOutside fields ["explanation", "questions"]
    if extraKeys.isEmpty then
      .questions ⟨getStr fields "explanation", qs.map extractQuestion⟩
    else
      .error ("Unexpected keys in questions response: "
        ++ String.intercalate ", " extraKeys)
  else
    .error "Invalid structure within questions array."

/-- The ordered rule list of `parseAIResponse` applied to an object's fields:
readiness signal, then patient explanation, then medical record, then
question batch, then the `invalid` fallback. -/
def parseFields (fields : List (String × Json)) : ParseResult :=
  if readyGuard fields then
    parseReady fields
  else if explanationShapeOk fields then
    parseExplanation fields
  else if recordShapeOk fields then
    .medicalRecord ⟨getStr fields "medicalRecord"⟩
  else if questionShapeOk fields then
    parseQuestions fields
  else
    .error ("Unexpected AI response format. Keys found: "
      ++ String.intercalate ", " (objKeys fields)
      ++ ". Does not match expected structures.")

/-- `parseAIResponse` (promptBuilder.ts): classify a decoded JSON value as one
of the four response shapes or an error. -/
def parseAIResponse (response : Json) : ParseResult :=
  match response.objectFields with
  | some fields => parseFields fields
  | none =>
      .error ("Invalid AI response format: Expected object, received "
        ++ response.jsTypeof ++ ".")


/-! ## JSON text decoding (`JSON.parse`), used by the record-prompt history
filter and modelled as a recursive-descent decoder. Numbers are integer-only
and string escapes are the common ones; payloads outside this subset decode
as `none`, which the filter treats as "not a match" exactly as the source
treats a thrown `SyntaxError`. -/

/-- Skip JSON whitespace. -/
def skipWs : List Char → List Char
  | c :: rest =>
      if c = ' ' || c = '\n' || c = '\t' || c = '\r' then skipWs rest else c :: rest
  | [] => []

/-- Decode the body of a JSON string literal after its opening quote,
returning the decoded text and the input past the closing quote. -/
def parseStringBody : List Char → Option (String × List Char)
  | [] => none
  | '"' :: rest => some ("", rest)
  | '\\' :: e :: rest =>
      let dec : Option Char :=
        if e = '"' then some '"'
        else if e = '\\' then some '\\'
        else if e = '/' then some '/'
        else if e = 'n' then some '\n'
        else if e = 't' then some '\t'
        else if e = 'r' then some '\r'
        else none
      match dec with
      | some c =>
          match parseStringBody rest with
          | some (s, r) => some (⟨c :: s.data⟩, r)
          | none => none
      | none => none
  | c :: rest =>
      match parseStringBody rest with
      | some (s, r) => some (⟨c :: s.data⟩, r)
      | none => none

/-- Split a leading run of decimal digits. -/
def takeDigits : List Char → List Char × List Char
  | [] => ([], [])
  | c :: rest =>
      if c.isDigit then
        let p := takeDigits rest
        (c :: p.1, p.2)
      else ([], c :: rest)

/-- Value of a digit run (most significant first), accumulator style. -/
def digitsVal (acc : Nat) : List Char → Nat
  | [] => acc
  | c :: rest => digitsVal (acc * 10 + (c.toNat - 48)) rest

/-- Decode an integer JSON number after an optional leading minus sign.
A fractional or exponent part is outside the model and decodes as `none`. -/
def parseNumberTail (neg : Bool) (s : List Char) : Option (Json × List Char) :=
  match takeDigits s with
  | ([], _) => none
  | (ds, rest) =>
      let bad := match rest with
        | c :: _ => c = '.' || c = 'e' || c = 'E'
        | [] => false
      if bad then none
      else
        let v : Int := Int.ofNat (digitsVal 0 ds)
        some (.num (if neg then -v else v), rest)

mutual

/-- Decode one JSON value; fuel is decremented on every nesting step and is
sufficient whenever it exceeds the input length. -/
def parseValue : Nat → List Char → Option (Json × List Char)
  | 0, _ => none
  | fuel + 1, s =>
      match skipWs s with
      | [] => none
      | c :: rest =>
          if c = 'n' then
            match rest with
            | 'u' :: 'l' :: 'l' :: r => some (.null, r)
            | _ => none
          else if c = 't' then
            match rest with
            | 'r' :: 'u' :: 'e' :: r => some (.bool true, r)
            | _ => none
          else if c = 'f' then
            match rest with
            | 'a' :: 'l' :: 's' :: 'e' :: r => some (.bool false, r)
            | _ => none
          else if c = '"' then
            (parseStringBody rest).map (fun p => (.str p.1, p.2))
          else if c = '-' then
            parseNumberTail true rest
          else if c.isDigit then
            parseNumberTail false (c :: rest)
          else if c = '[' then
            match skipWs rest with
            | ']' :: r => some (.arr [], r)
            | s2 => (parseElems fuel s2).map (fun p => (.arr p.1, p.2))
          else if c = '\x7b' then
            match skipWs rest with
            | '\x7d' :: r => some (.obj [], r)
            | s2 => (parseMembers fuel s2).map (fun p => (.obj p.1, p.2))
          else none

/-- Decode the elements of a non-empty JSON array up to its closing bracket. -/
def parseElems : Nat → List Char → Option (List Json × List Char)
  | 0, _ => none
  | fuel + 1, s =>
      match parseValue fuel s with
      | none => none
      | some (v, rest) =>
          match skipWs rest with
          | ',' :: r => (parseElems fuel r).map (fun p => (v :: p.1, p.2))
          | ']' :: r => some ([v], r)
          | _ => none

/-- Decode the members of a non-empty JSON object up to its closing brace. -/
def parseMembers : Nat → List Char → Option (List (String × Json) × List Char)
  | 0, _ => none
  | fuel + 1, s =>
      match skipWs s with
      | '"' :: rest =>
          match parseStringBody rest with
          | none => none
          | some (k, r1) =>
              match skipWs r1 with
              | ':' :: r2 =>
                  match parseValue fuel r2 with
                  | none => none
                  | some (v, r3) =>
                      match skipWs r3 with
                      | ',' :: r4 => (parseMembers fuel r4).map (fun p => ((k, v) :: p.1, p.2))
                      | '\x7d' :: r4 => some ([(k, v)], r4)
                      | _ => none
              | _ => none
      | _ => none

end

/-- `JSON.parse`: decode a whole string (trailing whitespace allowed);
`none` models a thrown `SyntaxError`. -/
def jsonParse (s : String) : Option Json :=
  match parseValue (s.data.length + 1) s.data with
  | some (v, rest) => if (skipWs rest).isEmpty then some v else none
  | none => none

/-! ## JavaScript string replacement -/

/-- Replace the leftmost occurrence of `pat` (a literal pattern). -/
def replaceFirstAux (pat rep : List Char) : List Char → List Char
  | [] => []
  | c :: rest =>
      if pat.isPrefixOf (c :: rest) then rep ++ (c :: rest).drop pat.length
      else c :: replaceFirstAux pat rep rest

/-- `s.replace(pat, rep)` with a string `pat`: JavaScript replaces only the
first occurrence. (The replacement strings used by the source carry no
`$`-pattern, so plain textual splicing is exact.) -/
def jsReplaceFirst (s pat rep : String) : String :=
  ⟨replaceFirstAux pat.data rep.data s.data⟩

/-- Replace every occurrence of `pat`, leftmost-first and non-overlapping. -/
def replaceAllAux (pat rep : List Char) : Nat → List Char → List Char
  | _, [] => []
  | 0, s => s
  | fuel + 1, c :: rest =>
      if pat.isPrefixOf (c :: rest) then
        rep ++ replaceAllAux pat rep fuel ((c :: rest).drop pat.length)
      else c :: replaceAllAux pat rep fuel rest

/-- `s.replace(new RegExp(escapedPat, 'g'), rep)` with an escaped literal
pattern: global leftmost non-overlapping replacement. -/
def jsReplaceAll (s pat rep : String) : String :=
  ⟨replaceAllAux pat.data rep.data s.data.length s.data⟩

/-- Whether `pat` occurs in `s` as a contiguous substring. -/
def containsSub (pat : List Char) : List Char → Bool
  | [] => pat.isEmpty
  | c :: rest => pat.isPrefixOf (c :: rest) || containsSub pat rest

/-! ## Chat messages (`ChatCompletionMessageParam`) -/

/-- Message roles. -/
inductive Role where
  | system
  | user
  | assistant
deriving DecidableEq, Repr

/-- One part of a multimodal message content array. -/
inductive ContentPart where
  | text (text : String)
  | imageUrl (url : String) (detail : String)
deriving DecidableEq, Repr

/-- Message content: a plain string or an array of content parts. -/
inductive PromptContent where
  | str (s : String)
  | parts (ps : List ContentPart)
deriving DecidableEq, Repr

/-- A chat message as sent to the model or stored in the conversation
history (the store only ever stores string contents). -/
structure ChatMessage where
  role : Role
  content : PromptContent
deriving DecidableEq, Repr

/-- Interface `InitialData`: the intake fields. -/
structure InitialData where
  fullName : String
  age : String
  gender : String
  complaint : String
deriving DecidableEq, Repr

/-! ## Prompt builders (promptBuilder.ts). The system prompt template
constants are the source's template literals verbatim (braces written with
hex escapes). `getCurrentLocalTime` is an impure clock read; each builder
takes the observed clock string `currentTime` as an explicit argument. -/

/-- The literal placeholder the system prompt templates carry for the
consultation time. -/
def timePlaceholderToken : String := "\x7bTIME\x7d"

/-- `ANAMNESIS_SYSTEM_PROMPT_CONTENT`. -/
def ANAMNESIS_SYSTEM_PROMPT_CONTENT : String := "Consultation Time: \x7bTIME\x7d
Your task is to conduct a thorough diagnostic conversation.
**Process to Follow:**

1. **Initiate & Chief Complaint:** Start by asking about the chief complaint and how long it's been going on.
2. **History of Present Illness (HPI):** This is the core. Systematically explore the primary symptom(s) using a framework like **SOCRATES** or **OPQRST**:
3. **Review of Systems (ROS):** Briefly ask about symptoms in other body systems (e.g., constitutional like fever/chills/weight change, head/neck, cardiovascular, respiratory, gastrointestinal, genitourinary, neurological, skin, musculoskeletal) to uncover potentially related issues. Ask general screening questions for each system unless a specific symptom points elsewhere.
4. **Past Medical History (PMH):** Ask about chronic illnesses, past major illnesses, surgeries, hospitalizations, and relevant screenings/vaccinations.
5. **Medications & Allergies:** Ask about all current medications (prescription, over-the-counter), supplements, and any known allergies (drugs, food, environmental).
6. **Family History (FH):** Ask about significant illnesses in immediate family members (parents, siblings, children), especially conditions that might be relevant (e.g., heart disease, diabetes, cancer, autoimmune conditions).
7. **Social History (SH):** Briefly inquire about relevant lifestyle factors like smoking, alcohol use, recreational drug use, occupation, living situation, diet, exercise, and stress levels, *only as potentially relevant* to the symptoms presented.
8. **Clarification & Summary:** Ask clarifying questions as needed.
9. **Red Flag Check & Disclaimer:** Explicitly ask if there are any 'red flag' symptoms (e.g., sudden severe pain, difficulty breathing, chest pain, neurological deficits like weakness/numbness/confusion, unexplained weight loss, blood where it shouldn't be).

**CRITICAL: Your output MUST be a single JSON object.**

**WRITE IN FRENCH**

**Output Format for Asking Questions:**
When asking questions, the JSON object MUST have this structure:
```json
\x7b
  \"explanation\": \"A brief, reassuring explanation of the current step or why you're asking these questions.\",
  \"questions\": [
    \x7b \"id\": \"qN\", \"text\": \"The question text.\", \"suggestions\": [\"Suggestion 1\", \"Suggestion 2\", \"...\"] \x7d,
    \x7b \"id\": \"qN+1\", \"text\": \"Another question text.\", \"suggestions\": [\"...\", \"...\"] \x7d
  ]
\x7d
```
- Each question MUST have a unique `id` (e.g., \"q1\", \"q2\").
- Include relevant `suggestions` as an array of strings to help the user answer.

**Output Format for Signaling Readiness to Conclude:**
When you determine you have sufficient information to theorize a diagnosis and write a Medical Record, output ONLY this JSON object:
```json
\x7b
  \"readyForRecord\": true
\x7d
```
- A separate request will be made to find the right diagnosis and generate a Medical Record (record to be given to a doctor) based on your conversation with the patient.

Start the conversation by asking initial questions based on the user's provided age, gender, and initial complaint."

/-- `RECORD_SYSTEM_PROMPT_CONTENT`. -/
def RECORD_SYSTEM_PROMPT_CONTENT : String := "Consultation Time: \x7bTIME\x7d
You tasked with synthesizing a Medical Record based on a provided medical anamnesis conversation AND ANY SUBMITTED PARACLINICAL EXAM IMAGES. Use bullet points. Analyze the images provided along with the text.
**CRITICAL: Your output MUST be a single JSON object.**
**WRITE IN FRENCH**

**Output Format for Final Medical Record:**
The JSON object MUST contain exactly one key: \"medicalRecord\". The value must be a string containing the markdown content of the Medical Record.
```json
\x7b
 \"medicalRecord\": \"A markdown file containning a Medical Observation based on the provided conversation history and any submitted paraclinical exam images.\"
\x7d
```
- Do NOT include any conversational text outside the JSON object.
- Do NOT ask any further questions.
- Do NOT ask about documents; summarize them if they were part of the history provided (this includes any uploaded paraclinical exam images)."

/-- `ANAMNESIS_SYSTEM_PROMPT_CONTENT` past its `TIME` placeholder (used to
state how the time substitution shapes the system message). -/
def anamnesisTemplateTail : String := "
Your task is to conduct a thorough diagnostic conversation.
**Process to Follow:**

1. **Initiate & Chief Complaint:** Start by asking about the chief complaint and how long it's been going on.
2. **History of Present Illness (HPI):** This is the core. Systematically explore the primary symptom(s) using a framework like **SOCRATES** or **OPQRST**:
3. **Review of Systems (ROS):** Briefly ask about symptoms in other body systems (e.g., constitutional like fever/chills/weight change, head/neck, cardiovascular, respiratory, gastrointestinal, genitourinary, neurological, skin, musculoskeletal) to uncover potentially related issues. Ask general screening questions for each system unless a specific symptom points elsewhere.
4. **Past Medical History (PMH):** Ask about chronic illnesses, past major illnesses, surgeries, hospitalizations, and relevant screenings/vaccinations.
5. **Medications & Allergies:** Ask about all current medications (prescription, over-the-counter), supplements, and any known allergies (drugs, food, environmental).
6. **Family History (FH):** Ask about significant illnesses in immediate family members (parents, siblings, children), especially conditions that might be relevant (e.g., heart disease, diabetes, cancer, autoimmune conditions).
7. **Social History (SH):** Briefly inquire about relevant lifestyle factors like smoking, alcohol use, recreational drug use, occupation, living situation, diet, exercise, and stress levels, *only as potentially relevant* to the symptoms presented.
8. **Clarification & Summary:** Ask clarifying questions as needed.
9. **Red Flag Check & Disclaimer:** Explicitly ask if there are any 'red flag' symptoms (e.g., sudden severe pain, difficulty breathing, chest pain, neurological deficits like weakness/numbness/confusion, unexplained weight loss, blood where it shouldn't be).

**CRITICAL: Your output MUST be a single JSON object.**

**WRITE IN FRENCH**

**Output Format for Asking Questions:**
When asking questions, the JSON object MUST have this structure:
```json
\x7b
  \"explanation\": \"A brief, reassuring explanation of the current step or why you're asking these questions.\",
  \"questions\": [
    \x7b \"id\": \"qN\", \"text\": \"The question text.\", \"suggestions\": [\"Suggestion 1\", \"Suggestion 2\", \"...\"] \x7d,
    \x7b \"id\": \"qN+1\", \"text\": \"Another question text.\", \"suggestions\": [\"...\", \"...\"] \x7d
  ]
\x7d
```
- Each question MUST have a unique `id` (e.g., \"q1\", \"q2\").
- Include relevant `suggestions` as an array of strings to help the user answer.

**Output Format for Signaling Readiness to Conclude:**
When you determine you have sufficient information to theorize a diagnosis and write a Medical Record, output ONLY this JSON object:
```json
\x7b
  \"readyForRecord\": true
\x7d
```
- A separate request will be made to find the right diagnosis and generate a Medical Record (record to be given to a doctor) based on your conversation with the patient.

Start the conversation by asking initial questions based on the user's provided age, gender, and initial complaint."

/-- The anamnesis system message with the consultation time substituted in
(`ANAMNESIS_SYSTEM_PROMPT_CONTENT.replace('TIME placeholder', currentTime)`). -/
def anamnesisSystemMessage (currentTime : String) : ChatMessage :=
  ⟨.system, .str (jsReplaceFirst ANAMNESIS_SYSTEM_PROMPT_CONTENT timePlaceholderToken currentTime)⟩

/-- The user message `buildInitialPrompt` assembles from the intake data
(its template literal interpolates age, gender and complaint; the subject
name is not interpolated). -/
def initialUserContent (initialData : InitialData) : String :=
  "Start the medical anamnesis. Here is the initial patient information:\n- Age: "
    ++ initialData.age
    ++ "\n- Gender: " ++ initialData.gender
    ++ "\n- Initial Complaint/Reason for Consultation: " ++ initialData.complaint
    ++ "\n\nAsk the first set of relevant questions based on this information. Remember to strictly follow the JSON output format for questions."

/-- `buildInitialPrompt`: the anamnesis system message (with the observed
clock time substituted) followed by the intake user message. -/
def buildInitialPrompt (initialData : InitialData) (currentTime : String) : List ChatMessage :=
  [anamnesisSystemMessage currentTime,
   ⟨.user, .str (initialUserContent initialData)⟩]

/-- `Array.isArray(o.k)` on an optional field access (`undefined` is not an
array). -/
def isSomeArr (o : Option Json) : Bool :=
  match o with
  | some (.arr _) => true
  | _ => false

/-- `typeof o.k === 'string'` on an optional field access. -/
def isSomeStr (o : Option Json) : Bool :=
  match o with
  | some (.str _) => true
  | _ => false

/-- The exclusion test `buildGenerateRecordPrompt` applies to each history
message: an assistant message whose string content decodes as JSON to an
object whose `mostProbableDiagnosis` and `recommendedSpecialists` are arrays,
whose `advice` is a string, and which has exactly three keys. A decode
failure (the thrown-and-caught `SyntaxError`, or JavaScript `in` applied to a
non-object) keeps the message. -/
def outcomeEchoContent (s : String) : Bool :=
  match jsonParse s with
  | some (Json.obj f) =>
      isSomeArr (jsonLookup f "mostProbableDiagnosis") &&
      isSomeStr (jsonLookup f "advice") &&
      isSomeArr (jsonLookup f "recommendedSpecialists") &&
      f.length == 3
  | _ => false

/-- Whether a history message is excluded by the prior-explanation filter of
`buildGenerateRecordPrompt`. -/
def isOutcomeEcho (m : ChatMessage) : Bool :=
  m.role == .assistant &&
    (match m.content with
      | .str s => outcomeEchoContent s
      | .parts _ => false)

/-- `initialData?.age || 'N/A'`: the empty-history error message defaults a
falsy field. -/
def orNA (s : String) : String :=
  if s.isEmpty then "N/A" else s

/-- The user message `buildGenerateRecordPrompt` emits when the history is
empty. -/
def recordEmptyHistoryContent (initialData : InitialData) : String :=
  "Error: Cannot generate medical record. The conversation history is missing.\nInitial Patient Information (if available):\n- Age: "
    ++ orNA initialData.age
    ++ "\n- Gender: " ++ orNA initialData.gender
    ++ "\n- Initial Complaint: " ++ orNA initialData.complaint

/-- The text part of the trailing record-generation instruction (the
template literal keeps the source file's indentation). -/
def recordInstructionText (initialData : InitialData) : String :=
  "Based on the initial patient information, the conversation history, AND the submitted paraclinical exam images (if any), please generate the final Medical Record (for a doctor).\n\n    Initial Patient Information:\n    - Age: "
    ++ initialData.age
    ++ "\n    - Gender: " ++ initialData.gender
    ++ "\n    - Initial Complaint/Reason for Consultation: " ++ initialData.complaint
    ++ "\n\n    The full conversation history and submitted images are provided in the messages above. Analyze the images as part of generating the record.\n\n    **CRITICAL: Your output MUST be a single JSON object containing only the 'medicalRecord' key, with the value being a string containing the markdown record, as specified in the system prompt.**\n    ```json\n    \x7b\n      \"medicalRecord\": \"...\"\n    \x7d\n    ```\n    **IMPORTANT PRIVACY INSTRUCTION:** When generating the medical record, use the exact placeholder `[PATIENT_FULL_NAME]` wherever the patient's full name should appear.\n\n    Do not include any other text or explanations outside this JSON structure. Synthesize the record from all provided information, including the images."

/-- `base64String.startsWith('data:') ? base64String.split(',')[1] :
base64String`, followed by the truthiness test that drops an empty result. -/
def cleanBase64 (s : String) : Option String :=
  if "data:".isPrefixOf s then
    match s.splitOn "," with
    | _ :: second :: _ => if second.isEmpty then none else some second
    | _ => none
  else if s.isEmpty then none else some s

/-- The image content parts appended to a trailing instruction message. -/
def imageParts (imagesBase64 : List String) : List ContentPart :=
  imagesBase64.filterMap fun b =>
    (cleanBase64 b).map fun c =>
      ContentPart.imageUrl ("data:image/jpeg;base64," ++ c) "auto"

/-- The record system message with the clock time substituted in. -/
def recordSystemMessage (currentTime : String) : ChatMessage :=
  ⟨.system, .str (jsReplaceFirst RECORD_SYSTEM_PROMPT_CONTENT timePlaceholderToken currentTime)⟩

/-- The trailing multimodal instruction message of `buildGenerateRecordPrompt`. -/
def recordInstructionMessage (initialData : InitialData) (imagesBase64 : List String) :
    ChatMessage :=
  ⟨.user, .parts (ContentPart.text (recordInstructionText initialData) :: imageParts imagesBase64)⟩

/-- `buildGenerateRecordPrompt`: record system message; then (unless the
history is empty, which yields an error instruction instead) the history with
system messages stripped and with prior structured-outcome assistant messages
stripped; then the trailing instruction with the intake fields, the
name-placeholder directive and any images. The absent optional `imagesBase64`
argument is modelled by `[]` (the source treats them identically). -/
def buildGenerateRecordPrompt (history : List ChatMessage) (initialData : InitialData)
    (imagesBase64 : List String) (currentTime : String) : List ChatMessage :=
  if history.isEmpty then
    [recordSystemMessage currentTime, ⟨.user, .str (recordEmptyHistoryContent initialData)⟩]
  else
    let withoutSystem := history.filter (fun m => !(m.role == .system))
    let withoutExplanation := withoutSystem.filter (fun m => !isOutcomeEcho m)
    recordSystemMessage currentTime
      :: withoutExplanation
      ++ [recordInstructionMessage initialData imagesBase64]


/-! ## API route: final-record placeholder substitution
(`src/app/api/ai-session/route.ts`, the tail of `POST` for
`action === 'generateRecord'`). -/

/-- The literal placeholder token the record prompt instructs the model to
emit for the subject name. -/
def patientNamePlaceholder : String := "[PATIENT_FULL_NAME]"

/-- The route's substitution: every literal occurrence of the placeholder in
the accepted record string is replaced with the request's `fullName`. -/
def substituteRecordPlaceholder (record fullName : String) : String :=
  jsReplaceAll record patientNamePlaceholder fullName

/-- What the route returns for a successfully parsed response to
`action === 'generateRecord'`: a `medicalRecord` result has the placeholder
substituted immediately after classification; every other accepted result is
passed through unchanged (and is then rejected by the expected-type check). -/
def finalizeGenerateRecordResponse (parsed : ParseResult) (fullName : String) : ParseResult :=
  match parsed with
  | .medicalRecord d => .medicalRecord ⟨substituteRecordPlaceholder d.medicalRecord fullName⟩
  | other => other

/-! ## Session store (`src/store/sessionStore.ts`): state and transitions.
The Zustand store's persistence side effects (`updateConsultation`,
`saveConsultation`) write to the external local-storage collaborator and do
not feed back into the modelled state. -/

/-- `AppStep`. -/
inductive AppStep where
  | initial
  | anamnesis
  | paraclinicalUpload
  | generatingExplanation
  | viewExplanation
  | generatingRecord
  | viewResults
  | errorState
deriving DecidableEq, Repr

/-- The store's session state (the fields the modelled transitions read or
write; `null`-able fields are `Option`s, `undefined` answers map entries are
absent association-list keys). -/
structure SessionState where
  conversationHistory : List ChatMessage
  currentQuestions : List Question
  currentExplanation : Option String
  isLoading : Bool
  isGeneratingExplanation : Bool
  isGeneratingRecord : Bool
  error : Option String
  isReadyForRecord : Bool
  isComplete : Bool
  structuredPatientExplanation : Option PatientExplanationData
  medicalRecord : Option String
  initialData : Option InitialData
  paraclinicalImagesBase64 : List String
  currentAppStep : AppStep
deriving DecidableEq, Repr

/-- What a store transition observes of its `fetch('/api/ai-session')` round
trip: one of the four typed payloads of an OK `{type, data}` response, or the
error message the transition's `catch` receives (a non-OK response's
`errorData.error`, a `{type: 'error'}` body, or a transport failure). -/
inductive ApiResponse where
  | questions (data : QuestionResponse)
  | readyForRecord (data : ReadyForRecordResponse)
  | patientExplanation (data : PatientExplanationData)
  | medicalRecord (data : MedicalRecordResponse)
  | apiError (message : String)
deriving DecidableEq, Repr

/-- A transition's outcome: the new state, and whether the transition
reached its model call (its `fetch`). -/
structure StepResult where
  state : SessionState
  modelCalled : Bool
deriving DecidableEq, Repr

/-- `answers[q.id]` on the `Record<string, string>` of answers. -/
def lookupAnswer (answers : List (String × String)) (id : String) : Option String :=
  match answers with
  | [] => none
  | (k, v) :: rest => if k = id then some v else lookupAnswer rest id

/-- `formatUserAnswers`: one block per current question, joined by blank
lines; a missing or falsy (empty) answer reads `No answer provided.`. -/
def formatUserAnswers (answers : List (String × String)) (questions : List Question) : String :=
  String.intercalate "\n\n" (questions.map fun q =>
    "Answer for Q (" ++ q.id ++ "): \"" ++ q.text ++ "\"\n"
      ++ (match lookupAnswer answers q.id with
          | some a => if a.isEmpty then "No answer provided." else a
          | none => "No answer provided."))

/-- `JSON.stringify` escaping for one character. -/
def jsonEscapeChar (c : Char) : String :=
  if c = '"' then "\\\""
  else if c = '\\' then "\\\\"
  else if c = '\n' then "\\n"
  else if c = '\t' then "\\t"
  else if c = '\r' then "\\r"
  else String.singleton c

/-- `JSON.stringify` escaping of a string body. -/
def jsonEscape (s : String) : String :=
  String.join (s.data.map jsonEscapeChar)

/-- A rendered JSON string literal. -/
def jsonStrLit (s : String) : String :=
  "\"" ++ jsonEscape s ++ "\""

/-- A rendered JSON array of string literals. -/
def jsonStrArrLit (xs : List String) : String :=
  "[" ++ String.intercalate "," (xs.map jsonStrLit) ++ "]"

/-- `JSON.stringify(data)` for a validated question batch (field order as in
the declared interface). -/
def stringifyQuestionResponse (d : QuestionResponse) : String :=
  "\x7b\"explanation\":" ++ jsonStrLit d.explanation ++ ",\"questions\":["
    ++ String.intercalate "," (d.questions.map fun q =>
        "\x7b\"id\":" ++ jsonStrLit q.id ++ ",\"text\":" ++ jsonStrLit q.text
          ++ (match q.suggestions with
              | some ss => ",\"suggestions\":" ++ jsonStrArrLit ss
              | none => "")
          ++ "\x7d")
    ++ "]\x7d"

/-- `JSON.stringify(data)` for a validated readiness signal. -/
def stringifyReadyResponse (d : ReadyForRecordResponse) : String :=
  "\x7b\"readyForRecord\":true"
    ++ (match d.explanation with
        | some e => ",\"explanation\":" ++ jsonStrLit e
        | none => "")
    ++ "\x7d"

/-- `JSON.stringify(data)` for a validated medical record. -/
def stringifyMedicalRecordResponse (d : MedicalRecordResponse) : String :=
  "\x7b\"medicalRecord\":" ++ jsonStrLit d.medicalRecord ++ "\x7d"

/-- `submitAnswers(answers)`: guard on an active question batch and
initialised session, append the formatted answers as one user message, call
the model, and on a validated `questions` / `readyForRecord` payload append
the serialized payload as one assistant message and commit the new phase;
any other outcome records the thrown error message and moves to
`errorState`. -/
def submitAnswers (st : SessionState) (answers : List (String × String))
    (api : ApiResponse) : StepResult :=
  if st.currentQuestions.isEmpty then
    ⟨st, false⟩
  else
    match st.initialData with
    | none =>
        ⟨{ st with error := some "Session not properly initialized.",
                   currentAppStep := .errorState }, false⟩
    | some _ =>
        let st1 := { st with isLoading := true, error := none }
        let userMsg : ChatMessage := ⟨.user, .str (formatUserAnswers answers st.currentQuestions)⟩
        let st2 := { st1 with conversationHistory := st1.conversationHistory ++ [userMsg] }
        match api with
        | .questions d =>
            let st3 := { st2 with conversationHistory :=
              st2.conversationHistory ++ [ChatMessage.mk .assistant (.str (stringifyQuestionResponse d))] }
            ⟨{ st3 with currentQuestions := d.questions,
                        currentExplanation := some d.explanation,
                        isLoading := false,
                        currentAppStep := .anamnesis }, true⟩
        | .readyForRecord d =>
            let st3 := { st2 with conversationHistory :=
              st2.conversationHistory ++ [ChatMessage.mk .assistant (.str (stringifyReadyResponse d))] }
            ⟨{ st3 with isReadyForRecord := true,
                        currentExplanation := d.explanation,
                        currentQuestions := [],
                        isLoading := false,
                        currentAppStep := .paraclinicalUpload }, true⟩
        | .apiError m =>
            ⟨{ st2 with error := some m,
                        currentAppStep := .errorState,
                        isLoading := false }, true⟩
        | .patientExplanation _ =>
            ⟨{ st2 with error := some "Invalid response format received from the API route during next step.",
                        currentAppStep := .errorState,
                        isLoading := false }, true⟩
        | .medicalRecord _ =>
            ⟨{ st2 with error := some "Invalid response format received from the API route during next step.",
                        currentAppStep := .errorState,
                        isLoading := false }, true⟩

/-- `generateRecord()`: guard on intake data and on a present structured
patient explanation (each rejection records its message and moves to
`errorState` without a model call); otherwise call the model and on a
validated `medicalRecord` payload append it to history and complete the
session. -/
def generateRecord (st : SessionState) (api : ApiResponse) : StepResult :=
  match st.initialData with
  | none =>
      ⟨{ st with error := some "Cannot generate final record: Initial patient data is missing.",
                 currentAppStep := .errorState }, false⟩
  | some _ =>
      match st.structuredPatientExplanation with
      | none =>
          ⟨{ st with error := some "Cannot generate final record until patient explanation is available.",
                     currentAppStep := .errorState }, false⟩
      | some _ =>
          let st1 := { st with isLoading := true, isGeneratingRecord := true,
                               error := none, currentAppStep := .generatingRecord }
          match api with
          | .medicalRecord d =>
              let st2 := { st1 with conversationHistory :=
                st1.conversationHistory ++ [ChatMessage.mk .assistant (.str (stringifyMedicalRecordResponse d))] }
              ⟨{ st2 with medicalRecord := some d.medicalRecord,
                          isComplete := true,
                          isLoading := false,
                          isGeneratingRecord := false,
                          currentAppStep := .viewResults }, true⟩
          | .apiError m =>
              ⟨{ st1 with error := some m,
                          currentAppStep := .errorState,
                          isLoading := false,
                          isGeneratingRecord := false }, true⟩
          | .questions _ =>
              ⟨{ st1 with error := some "Invalid response format received from the API route generating record.",
                          currentAppStep := .errorState,
                          isLoading := false,
                          isGeneratingRecord := false }, true⟩
          | .readyForRecord _ =>
              ⟨{ st1 with error := some "Invalid response format received from the API route generating record.",
                          currentAppStep := .errorState,
                          isLoading := false,
                          isGeneratingRecord := false }, true⟩
          | .patientExplanation _ =>
              ⟨{ st1 with error := some "Invalid response format received from the API route generating record.",
                          currentAppStep := .errorState,
                          isLoading := false,
                          isGeneratingRecord := false }, true⟩


/-! ## Claim-side predicates and concrete fixtures -/

/-- The spec's readiness-signal acceptance condition as the code corrects it:
a boolean-true `readyForRecord` key, no key outside `readyForRecord` and
`explanation`, and any present truthy `explanation` value is a string. -/
def readinessAccepted (fields : List (String × Json)) : Prop :=
  jsonLookup fields "readyForRecord" = some (.bool true)
  ∧ (∀ k ∈ objKeys fields, k = "readyForRecord" ∨ k = "explanation")
  ∧ (∀ e, jsonLookup fields "explanation" = some e → e.truthy = true → e.isStr = true)

/-- Modelled from the spec wording of the outcome-echo filter: the decoded
value has exactly the three required keys of the outcome shape (the spec
places no constraint on the field values themselves). Compared against the
source filter `outcomeEchoContent`, which additionally checks the three
value types. -/
def specOutcomeKeysOnly (f : List (String × Json)) : Bool :=
  (jsonLookup f "mostProbableDiagnosis").isSome &&
  (jsonLookup f "advice").isSome &&
  (jsonLookup f "recommendedSpecialists").isSome &&
  f.length == 3

/-- Sample intake data for concrete check inputs. -/
def sampleIntake : InitialData :=
  ⟨"Jane Doe", "30", "Female", "cough"⟩

/-- Sample intake identical to `sampleIntake` except for the subject name. -/
def sampleIntakeRenamed : InitialData :=
  ⟨"John Smith", "30", "Female", "cough"⟩

/-- A quiescent session state template for concrete check inputs. -/
def baseState : SessionState :=
  { conversationHistory := []
    currentQuestions := []
    currentExplanation := none
    isLoading := false
    isGeneratingExplanation := false
    isGeneratingRecord := false
    error := none
    isReadyForRecord := false
    isComplete := false
    structuredPatientExplanation := none
    medicalRecord := none
    initialData := none
    paraclinicalImagesBase64 := []
    currentAppStep := .initial }

/-- An interviewing session whose current question batch is empty. -/
def emptyBatchState : SessionState :=
  { baseState with
      conversationHistory := [ChatMessage.mk .user (.str "hello")]
      initialData := some sampleIntake
      currentAppStep := .anamnesis }

/-- An interviewing session holding one active question. -/
def interviewingState : SessionState :=
  { baseState with
      conversationHistory := [ChatMessage.mk .user (.str "hello")]
      currentQuestions := [⟨"q1", "Where does it hurt?", none⟩]
      initialData := some sampleIntake
      currentAppStep := .anamnesis }

/-- A session past the outcome phase whose structured explanation is absent. -/
def noOutcomeState : SessionState :=
  { baseState with
      conversationHistory := [ChatMessage.mk .user (.str "hello")]
      initialData := some sampleIntake
      currentAppStep := .viewExplanation }

/-- A session ready for record generation. -/
def outcomeReadyState : SessionState :=
  { baseState with
      conversationHistory := [ChatMessage.mk .user (.str "hello")]
      initialData := some sampleIntake
      structuredPatientExplanation := some ⟨["flu"], "rest", ["GP"]⟩
      currentAppStep := .viewExplanation }

/-- An assistant message whose content decodes to an object carrying exactly
the three outcome keys with non-conforming (numeric) values. -/
def echoKeysOnlyStr : String :=
  "\x7b\"mostProbableDiagnosis\":1,\"advice\":2,\"recommendedSpecialists\":3\x7d"

/-- The decoded fields of `echoKeysOnlyStr`. -/
def echoKeysOnlyFields : List (String × Json) :=
  [("mostProbableDiagnosis", .num 1), ("advice", .num 2), ("recommendedSpecialists", .num 3)]

/-- The history message wrapping `echoKeysOnlyStr`. -/
def echoKeysOnlyMessage : ChatMessage :=
  ⟨.assistant, .str echoKeysOnlyStr⟩

/-- A record text carrying the subject-name placeholder twice. -/
def twoTokenRecord : String :=
  "Observation pour [PATIENT_FULL_NAME]. Signature: [PATIENT_FULL_NAME]."

/-- `twoTokenRecord` with the subject name substituted at both positions. -/
def twoTokenRecordSubstituted : String :=
  "Observation pour Jane Doe. Signature: Jane Doe."

/-- The decoded question-batch object whose two items share the id `q1`. -/
def duplicateIdBatch : Json :=
  .obj [("explanation", .str "e"),
        ("questions", .arr [
          .obj [("id", .str "q1"), ("text", .str "a")],
          .obj [("id", .str "q1"), ("text", .str "b")]])]


/-! ## Shared lemmas -/

/-- `replaceFirstAux` is injective in its replacement once the pattern is
known to occur in the subject (the substituted text is `front ++ rep ++
back` with `front`/`back` fixed by pattern and subject). -/
theorem replaceFirstAux_rep_inj (pat rep1 rep2 : List Char) (s : List Char)
    (hpat : pat ≠ []) (hocc : containsSub pat s = true)
    (h : replaceFirstAux pat rep1 s = replaceFirstAux pat rep2 s) : rep1 = rep2 := by
  induction s with
  | nil => simp [containsSub, List.isEmpty_iff] at hocc; exact absurd hocc hpat
  | cons c rest ih =>
      by_cases hp : pat.isPrefixOf (c :: rest)
      · simp [replaceFirstAux, hp] at h
        exact h
      · simp [replaceFirstAux, hp] at h
        simp [containsSub, hp] at hocc
        exact ih hocc h

/-- The clock string can be read back off a built initial prompt: equal
outputs force equal clock strings, since the anamnesis template carries the
`TIME` placeholder. -/
theorem buildInitialPrompt_time_inj (d : InitialData) (t1 t2 : String)
    (h : buildInitialPrompt d t1 = buildInitialPrompt d t2) : t1 = t2 := by
  simp [buildInitialPrompt, anamnesisSystemMessage, jsReplaceFirst] at h
  injection h with h
  have hd := replaceFirstAux_rep_inj timePlaceholderToken.data t1.data t2.data
    ANAMNESIS_SYSTEM_PROMPT_CONTENT.data (by decide) (by rfl) h
  cases t1; cases t2; exact congrArg String.mk hd

/-- `readyGuard` holds exactly when the `readyForRecord` key stores the
boolean `true`. -/
theorem readyGuard_eq_true_iff (fields : List (String × Json)) :
    readyGuard fields = true ↔ jsonLookup fields "readyForRecord" = some (.bool true) := by
  cases hl : jsonLookup fields "readyForRecord" with
  | none => simp [readyGuard, hl]
  | some j =>
      cases j with
      | bool b => cases b <;> simp [readyGuard, hl]
      | null => simp [readyGuard, hl]
      | num n => simp [readyGuard, hl]
      | str s => simp [readyGuard, hl]
      | arr xs => simp [readyGuard, hl]
      | obj f => simp [readyGuard, hl]

/-- The truthy-non-string explanation test is clean exactly when any present
truthy explanation value is a string. -/
theorem badReadyExplanation_eq_false_iff (fields : List (String × Json)) :
    badReadyExplanation fields = false ↔
      ∀ e, jsonLookup fields "explanation" = some e → e.truthy = true → e.isStr = true := by
  cases hl : jsonLookup fields "explanation" with
  | none => simp [badReadyExplanation, hl]
  | some e =>
      simp only [badReadyExplanation, hl, Option.some.injEq]
      cases ht : e.truthy <;> cases hs : e.isStr <;> simp_all

/-- No extra key outside the readiness shape exactly when every key is
`readyForRecord` or `explanation`. -/
theorem extraKeysReady_nil_iff (fields : List (String × Json)) :
    extraKeysOutside fields ["readyForRecord", "explanation"] = [] ↔
      ∀ k ∈ objKeys fields, k = "readyForRecord" ∨ k = "explanation" := by
  unfold extraKeysOutside
  rw [List.filter_eq_nil_iff]
  simp [or_iff_not_imp_left]

/-- The readiness branch yields a readiness signal exactly when its two
checks pass. -/
theorem parseReady_ready_iff (fields : List (String × Json)) :
    (∃ d, parseReady fields = .readyForRecord d) ↔
      (badReadyExplanation fields = false
        ∧ extraKeysOutside fields ["readyForRecord", "explanation"] = []) := by
  unfold parseReady
  by_cases hb : badReadyExplanation fields
  · simp [hb]
  · by_cases he : extraKeysOutside fields ["readyForRecord", "explanation"] = []
    · simp [hb, he]
    · have h2 : (extraKeysOutside fields ["readyForRecord", "explanation"]).isEmpty = false := by
        simpa [List.isEmpty_iff] using he
      simp [hb, he, h2]

/-- The patient-explanation branch never yields a readiness signal. -/
theorem parseExplanation_ne_ready (fields : List (String × Json))
    (d : ReadyForRecordResponse) : parseExplanation fields ≠ .readyForRecord d := by
  by_cases h : (extraKeysOutside fields
      ["mostProbableDiagnosis", "advice", "recommendedSpecialists"]).isEmpty
  <;> simp [parseExplanation, h]

/-- The question-batch branch never yields a readiness signal. -/
theorem parseQuestions_ne_ready (fields : List (String × Json))
    (d : ReadyForRecordResponse) : parseQuestions fields ≠ .readyForRecord d := by
  unfold parseQuestions
  dsimp only
  split <;> (try split) <;> (try split) <;> simp

/-- An optional field access is an array exactly when it stores some array. -/
theorem isSomeArr_iff (o : Option Json) :
    isSomeArr o = true ↔ ∃ xs, o = some (.arr xs) := by
  cases o with
  | none => simp [isSomeArr]
  | some j => cases j <;> simp [isSomeArr]

/-- An optional field access is a string exactly when it stores some string. -/
theorem isSomeStr_iff (o : Option Json) :
    isSomeStr o = true ↔ ∃ a, o = some (.str a) := by
  cases o with
  | none => simp [isSomeStr]
  | some j => cases j <;> simp [isSomeStr]

/-- Semantic reading of the outcome-echo content test: the content decodes
to an object with exactly three keys whose outcome fields have the outcome
types. -/
theorem outcomeEchoContent_iff (s : String) :
    outcomeEchoContent s = true ↔
      ∃ f, jsonParse s = some (.obj f)
        ∧ (∃ xs, jsonLookup f "mostProbableDiagnosis" = some (.arr xs))
        ∧ (∃ a, jsonLookup f "advice" = some (.str a))
        ∧ (∃ ys, jsonLookup f "recommendedSpecialists" = some (.arr ys))
        ∧ f.length = 3 := by
  cases hp : jsonParse s with
  | none => simp [outcomeEchoContent, hp]
  | some j =>
      cases j <;> simp [outcomeEchoContent, hp, isSomeArr_iff, isSomeStr_iff, and_assoc]

/-- Semantic reading of the record-prompt exclusion test on a whole message. -/
theorem isOutcomeEcho_iff (m : ChatMessage) :
    isOutcomeEcho m = true ↔
      (m.role = .assistant
        ∧ ∃ s f, m.content = .str s ∧ jsonParse s = some (.obj f)
            ∧ (∃ xs, jsonLookup f "mostProbableDiagnosis" = some (.arr xs))
            ∧ (∃ a, jsonLookup f "advice" = some (.str a))
            ∧ (∃ ys, jsonLookup f "recommendedSpecialists" = some (.arr ys))
            ∧ f.length = 3) := by
  obtain ⟨r, c⟩ := m
  cases r <;> cases c <;>
    simp [isOutcomeEcho, outcomeEchoContent_iff]

/-! ## Claim theorems -/

/-- C1 (counterexample): `parseAIResponse` accepts the two-item batch whose
items share the id `q1`, classifying it as a question batch instead of
rejecting it as invalid, so question ids accepted by the validator are not
pairwise distinct. -/
theorem c1_duplicate_ids_accepted :
    parseAIResponse duplicateIdBatch
      = .questions ⟨"e", [⟨"q1", "a", none⟩, ⟨"q1", "b", none⟩]⟩ := by
  rfl

/-- C1 (amended): question-id uniqueness is not validated. Any batch object
with a string explanation, no extra top-level keys, and two well-shaped
items sharing one id is classified as a question batch, never as invalid. -/
theorem c1_duplicate_ids_not_validated (e i t1 t2 : String) :
    parseAIResponse (.obj [("explanation", .str e),
      ("questions", .arr [
        .obj [("id", .str i), ("text", .str t1)],
        .obj [("id", .str i), ("text", .str t2)]])])
    = .questions ⟨e, [⟨i, t1, none⟩, ⟨i, t2, none⟩]⟩ := by
  rfl

/-- C2 (counterexample): invoking `submitAnswers` on a concrete session with
an empty current question batch leaves the state untouched — the session is
not moved to the failed step and no error message is recorded, contrary to
the claim. -/
theorem c2_empty_batch_silent :
    submitAnswers emptyBatchState [] (.apiError "boom") = ⟨emptyBatchState, false⟩
    ∧ emptyBatchState.error = none
    ∧ emptyBatchState.currentAppStep = .anamnesis := by
  refine ⟨rfl, rfl, rfl⟩

/-- C2 (amended): `submitAnswers` with no active question batch returns
before any model call with the session state entirely unchanged: it is a
silent no-op, not a transition to the failed state, and no error message is
recorded. -/
theorem c2_empty_batch_rejected_unchanged (st : SessionState)
    (answers : List (String × String)) (api : ApiResponse)
    (h : st.currentQuestions = []) :
    submitAnswers st answers api = ⟨st, false⟩ := by
  simp [submitAnswers, h]

/-- C2 witness: the amended statement at a concrete interviewing state. -/
theorem c2_empty_batch_rejected_unchanged_witness :
    submitAnswers emptyBatchState [("q1", "yes")] (.questions ⟨"x", []⟩)
      = ⟨emptyBatchState, false⟩ :=
  c2_empty_batch_rejected_unchanged emptyBatchState [("q1", "yes")] (.questions ⟨"x", []⟩) rfl

/-- C3 (counterexample): a readiness object whose explanation is the
non-string `null` is classified as a readiness signal (with the explanation
dropped), not as invalid as the claim requires. -/
theorem c3_null_explanation_accepted :
    parseAIResponse (.obj [("readyForRecord", .bool true), ("explanation", .null)])
      = .readyForRecord ⟨none⟩ := by
  rfl

/-- C3 (amended): a decoded object is classified as a readiness signal
exactly when it has a boolean-true `readyForRecord` key, no key outside
`readyForRecord`/`explanation`, and any present truthy explanation value is
a string: a truthy non-string explanation or an extra key yields invalid,
but a falsy non-string explanation (`null`, `false`, `0`) is tolerated. -/
theorem c3_readiness_classification (fields : List (String × Json)) :
    (∃ d, parseAIResponse (.obj fields) = .readyForRecord d) ↔ readinessAccepted fields := by
  show (∃ d, parseFields fields = .readyForRecord d) ↔ readinessAccepted fields
  unfold parseFields
  by_cases hgb : readyGuard fields
  · rw [if_pos hgb, parseReady_ready_iff]
    unfold readinessAccepted
    rw [readyGuard_eq_true_iff] at hgb
    rw [badReadyExplanation_eq_false_iff, extraKeysReady_nil_iff]
    constructor
    · rintro ⟨hb, he⟩
      exact ⟨hgb, he, hb⟩
    · rintro ⟨-, he, hb⟩
      exact ⟨hb, he⟩
  · rw [if_neg hgb]
    constructor
    · rintro ⟨d, hd⟩
      by_cases h2 : explanationShapeOk fields
      · rw [if_pos h2] at hd
        exact absurd hd (parseExplanation_ne_ready fields d)
      · rw [if_neg h2] at hd
        by_cases h3 : recordShapeOk fields
        · rw [if_pos h3] at hd
          simp at hd
        · rw [if_neg h3] at hd
          by_cases h4 : questionShapeOk fields
          · rw [if_pos h4] at hd
            exact absurd hd (parseQuestions_ne_ready fields d)
          · rw [if_neg h4] at hd
            simp at hd
    · intro hr
      exact absurd ((readyGuard_eq_true_iff fields).mpr hr.1) hgb

/-- C4 (counterexample): an assistant message whose content decodes to an
object with exactly the three outcome keys but non-conforming field values
is kept by `buildGenerateRecordPrompt`, although the claim says every such
message is removed. -/
theorem c4_keys_only_message_kept :
    jsonParse echoKeysOnlyStr = some (.obj echoKeysOnlyFields)
    ∧ specOutcomeKeysOnly echoKeysOnlyFields = true
    ∧ echoKeysOnlyMessage.role = .assistant
    ∧ buildGenerateRecordPrompt [echoKeysOnlyMessage] sampleIntake [] "T"
        = [recordSystemMessage "T", echoKeysOnlyMessage,
           recordInstructionMessage sampleIntake []] := by
  refine ⟨rfl, rfl, rfl, rfl⟩

/-- C4 (amended): on a non-empty history, `buildGenerateRecordPrompt` keeps
exactly the history messages that are neither system messages nor outcome
echoes, in their original order, between the record system message and the
trailing instruction; and a message is an outcome echo exactly when it is an
assistant message whose string content decodes as JSON to an object with
exactly three keys whose `mostProbableDiagnosis` is an array, `advice` a
string and `recommendedSpecialists` an array (decode failures are kept). -/
theorem c4_record_prompt_filter (history : List ChatMessage) (d : InitialData)
    (imgs : List String) (t : String) (hne : history ≠ []) :
    buildGenerateRecordPrompt history d imgs t
      = recordSystemMessage t
          :: history.filter (fun m => !isOutcomeEcho m && !(m.role == .system))
          ++ [recordInstructionMessage d imgs]
    ∧ ∀ m : ChatMessage, isOutcomeEcho m = true ↔
        (m.role = .assistant
          ∧ ∃ s f, m.content = .str s ∧ jsonParse s = some (.obj f)
              ∧ (∃ xs, jsonLookup f "mostProbableDiagnosis" = some (.arr xs))
              ∧ (∃ a, jsonLookup f "advice" = some (.str a))
              ∧ (∃ ys, jsonLookup f "recommendedSpecialists" = some (.arr ys))
              ∧ f.length = 3) := by
  have hne2 : history.isEmpty = false := by simpa [List.isEmpty_iff] using hne
  refine ⟨?_, fun m => isOutcomeEcho_iff m⟩
  simp [buildGenerateRecordPrompt, hne2, List.filter_filter]

/-- C4 witness: the amended statement at a one-message history. -/
theorem c4_record_prompt_filter_witness :
    buildGenerateRecordPrompt [echoKeysOnlyMessage] sampleIntake [] "T"
      = recordSystemMessage "T"
          :: [echoKeysOnlyMessage].filter
              (fun m => !isOutcomeEcho m && !(m.role == .system))
          ++ [recordInstructionMessage sampleIntake []]
    ∧ ∀ m : ChatMessage, isOutcomeEcho m = true ↔
        (m.role = .assistant
          ∧ ∃ s f, m.content = .str s ∧ jsonParse s = some (.obj f)
              ∧ (∃ xs, jsonLookup f "mostProbableDiagnosis" = some (.arr xs))
              ∧ (∃ a, jsonLookup f "advice" = some (.str a))
              ∧ (∃ ys, jsonLookup f "recommendedSpecialists" = some (.arr ys))
              ∧ f.length = 3) :=
  c4_record_prompt_filter [echoKeysOnlyMessage] sampleIntake [] "T" (by simp)

/-- C5: applying the route's finalisation to an accepted `medicalRecord`
whose text carries the placeholder token twice and the subject name
`Jane Doe` substitutes the name at both positions; the token occurs nowhere
in the result, and the store's record transition then stores exactly the
substituted text. -/
theorem c5_placeholder_substitution :
    finalizeGenerateRecordResponse (.medicalRecord ⟨twoTokenRecord⟩) "Jane Doe"
      = .medicalRecord ⟨twoTokenRecordSubstituted⟩
    ∧ containsSub patientNamePlaceholder.data twoTokenRecordSubstituted.data = false
    ∧ (generateRecord outcomeReadyState
        (.medicalRecord ⟨twoTokenRecordSubstituted⟩)).state.medicalRecord
      = some twoTokenRecordSubstituted := by
  refine ⟨rfl, rfl, rfl⟩

/-- C6 (counterexample): `buildInitialPrompt` applied to the same intake
data at two different clock readings produces different message lists, so
the builder is not a function of (phase, history, phase inputs) alone. -/
theorem c6_time_dependence :
    buildInitialPrompt sampleIntake "4/27/2025, 10:00:00 AM"
      ≠ buildInitialPrompt sampleIntake "4/27/2025, 10:00:01 AM" := by
  intro h
  exact absurd (buildInitialPrompt_time_inj _ _ _ h) (by decide)

/-- C6 (amended): each prompt builder is a pure function of (phase, history,
phase inputs, observed clock string): with the intake fixed, two invocations
of `buildInitialPrompt` produce identical ordered message lists exactly when
they observe the same clock string, the clock reading being embedded in the
system message. -/
theorem c6_pure_in_inputs_and_clock (d : InitialData) (t1 t2 : String) :
    buildInitialPrompt d t1 = buildInitialPrompt d t2 ↔ t1 = t2 := by
  constructor
  · exact buildInitialPrompt_time_inj d t1 t2
  · intro h; rw [h]

/-- C7: `generateRecord` invoked while the structured patient explanation is
absent issues no model call, moves the session to the error step and records
an error message, whatever the session's current step and whatever the
response the gateway would have produced. -/
theorem c7_record_requires_outcome (st : SessionState) (api : ApiResponse)
    (h : st.structuredPatientExplanation = none) :
    (generateRecord st api).modelCalled = false
    ∧ (generateRecord st api).state.currentAppStep = .errorState
    ∧ (generateRecord st api).state.error ≠ none := by
  cases hi : st.initialData <;> simp [generateRecord, hi, h]

/-- C7 witness: the statement at a concrete outcome-less session. -/
theorem c7_record_requires_outcome_witness :
    (generateRecord noOutcomeState (.apiError "x")).modelCalled = false
    ∧ (generateRecord noOutcomeState (.apiError "x")).state.currentAppStep = .errorState
    ∧ (generateRecord noOutcomeState (.apiError "x")).state.error ≠ none :=
  c7_record_requires_outcome noOutcomeState (.apiError "x") rfl

/-- C8: neither the interview-start prompt nor the record-generation prompt
depends on the intake's `fullName` field: two intakes agreeing on age,
gender and complaint yield identical message lists whatever their names, so
the subject's name never reaches a prompt. -/
theorem c8_prompts_independent_of_name (d1 d2 : InitialData) (t : String)
    (history : List ChatMessage) (imgs : List String)
    (ha : d1.age = d2.age) (hg : d1.gender = d2.gender)
    (hc : d1.complaint = d2.complaint) :
    buildInitialPrompt d1 t = buildInitialPrompt d2 t
    ∧ buildGenerateRecordPrompt history d1 imgs t
        = buildGenerateRecordPrompt history d2 imgs t := by
  obtain ⟨n1, a1, g1, c1⟩ := d1
  obtain ⟨n2, a2, g2, c2⟩ := d2
  dsimp at ha hg hc
  subst ha; subst hg; subst hc
  exact ⟨rfl, rfl⟩

/-- C8 witness: the statement at two concrete intakes differing only in the
subject name. -/
theorem c8_prompts_independent_of_name_witness :
    buildInitialPrompt sampleIntake "T" = buildInitialPrompt sampleIntakeRenamed "T"
    ∧ buildGenerateRecordPrompt [ChatMessage.mk .user (.str "hello")] sampleIntake [] "T"
        = buildGenerateRecordPrompt [ChatMessage.mk .user (.str "hello")] sampleIntakeRenamed [] "T" :=
  c8_prompts_independent_of_name sampleIntake sampleIntakeRenamed "T"
    [ChatMessage.mk .user (.str "hello")] [] rfl rfl rfl

/-- C9: a successful `submitAnswers` transition (one with an active batch,
an initialised session, and a validated `questions` or `readyForRecord`
payload) appends to the conversation history exactly one user message
holding the formatted answers followed by exactly one assistant message
holding the serialized validated payload, leaving every prior entry as it
was. -/
theorem c9_submit_appends_user_then_assistant (st : SessionState)
    (answers : List (String × String)) (d : InitialData)
    (qd : QuestionResponse) (rd : ReadyForRecordResponse)
    (hq : st.currentQuestions ≠ []) (hd : st.initialData = some d) :
    (submitAnswers st answers (.questions qd)).state.conversationHistory
      = st.conversationHistory
        ++ [ChatMessage.mk .user (.str (formatUserAnswers answers st.currentQuestions)),
            ChatMessage.mk .assistant (.str (stringifyQuestionResponse qd))]
    ∧ (submitAnswers st answers (.readyForRecord rd)).state.conversationHistory
      = st.conversationHistory
        ++ [ChatMessage.mk .user (.str (formatUserAnswers answers st.currentQuestions)),
            ChatMessage.mk .assistant (.str (stringifyReadyResponse rd))] := by
  have hq2 : st.currentQuestions.isEmpty = false := by
    simpa [List.isEmpty_iff] using hq
  constructor <;> simp [submitAnswers, hq2, hd]

/-- C9 witness: the statement at a concrete interviewing session for both
payload kinds. -/
theorem c9_submit_appends_user_then_assistant_witness :
    (submitAnswers interviewingState [("q1", "left knee")]
        (.questions ⟨"next", [⟨"q2", "Since when?", none⟩]⟩)).state.conversationHistory
      = interviewingState.conversationHistory
        ++ [ChatMessage.mk .user
              (.str (formatUserAnswers [("q1", "left knee")] interviewingState.currentQuestions)),
            ChatMessage.mk .assistant
              (.str (stringifyQuestionResponse ⟨"next", [⟨"q2", "Since when?", none⟩]⟩))]
    ∧ (submitAnswers interviewingState [("q1", "left knee")]
        (.readyForRecord ⟨none⟩)).state.conversationHistory
      = interviewingState.conversationHistory
        ++ [ChatMessage.mk .user
              (.str (formatUserAnswers [("q1", "left knee")] interviewingState.currentQuestions)),
            ChatMessage.mk .assistant (.str (stringifyReadyResponse ⟨none⟩))] :=
  c9_submit_appends_user_then_assistant interviewingState [("q1", "left knee")]
    sampleIntake ⟨"next", [⟨"q2", "Since when?", none⟩]⟩ ⟨none⟩ (by decide) rfl

/-- C10: the validator accepts a batch object whose questions array is
empty (string explanation, empty `questions`, no other keys), and feeding
that batch through `submitAnswers` leaves the session in the interviewing
step with an empty current question batch. -/
theorem c10_empty_question_batch_accepted :
    parseAIResponse (.obj [("explanation", .str "ok"), ("questions", .arr [])])
      = .questions ⟨"ok", []⟩
    ∧ (submitAnswers interviewingState [] (.questions ⟨"ok", []⟩)).state.currentAppStep
      = .anamnesis
    ∧ (submitAnswers interviewingState [] (.questions ⟨"ok", []⟩)).state.currentQuestions
      = [] := by
  refine ⟨rfl, rfl, rfl⟩

end MedGuide2
